import Mathlib

/-
Shallow embedding of tinyland-inc/tinyland-video-thumbnails.

The repository resolves a displayable thumbnail (URL + dimensions) for a
video page URL across YouTube, Vimeo and PeerTube, and caches results in an
in-memory TTL map.  Sources embedded here:
  src/types.ts      : Platform, ThumbnailResult, CacheEntry
  src/platforms.ts  : detectPlatform, extractYouTubeId
  src/fetchers.ts   : fetchYouTubeThumbnail, fetchPeerTubeThumbnail,
                      fetchVimeoThumbnail
  src/cache.ts      : CACHE_TTL, getVideoThumbnail, clearThumbnailCache,
                      getCacheStats, pruneExpiredCache

Modelling conventions:
  - The platform builtins `new URL(...)`, `fetch` (HEAD probes) and
    `fetch` + `res.json()` (JSON GETs) are external collaborators; they are
    passed in as an `Env` of oracles.  `new URL` throwing is `none`;
    a rejected `fetch` is the `thrown` outcome; `res.json()` rejecting is
    `okJsonThrows`.
  - Each async fetcher is embedded writer-style: it returns its value
    together with the list of request URLs it issued, in order.
  - `Date.now()` values are explicit `Int` parameters (JS epoch ms);
    `getVideoThumbnail` takes one instant for its cache-freshness read and
    one for the insertion timestamp, matching its two `Date.now()` calls.
  - The module-level `Map<string, CacheEntry>` is an association list with
    JS `Map` semantics: `get` finds the unique entry, `set` overwrites in
    place or appends, `delete` removes, iteration is in insertion order.
  - JS string/number coercions are modelled explicitly: `jsIncludes` is
    `String.prototype.includes`, `jsNullish` is `??` on possibly-absent
    strings, truthiness of a string is "present and nonempty", and
    `jsOrInt` is `x || d` on a possibly-absent number (0 is falsy).
  - The two regular expressions are embedded as leftmost-match scans over
    the character list: alternatives tried in order at each start position,
    capture group taken greedily; this agrees with JS `String.prototype.match`
    semantics for these alternation-of-literals patterns.
-/

namespace TinyThumbs

/-- Supported video platforms (src/types.ts `Platform`). -/
inductive Platform where
  | youtube
  | peertube
  | vimeo
deriving DecidableEq, Repr

/-- Result returned from a thumbnail resolution (src/types.ts `ThumbnailResult`). -/
structure ThumbnailResult where
  url : String
  width : Int
  height : Int
  platform : Platform
  cached : Bool
deriving DecidableEq, Repr

/-- Internal cache entry wrapping a result with its insertion timestamp
(src/types.ts `CacheEntry`). -/
structure CacheEntry where
  result : ThumbnailResult
  timestamp : Int
deriving DecidableEq, Repr

/-- The observable pieces of a parsed `new URL(...)` object that the code
reads: `hostname` and `origin`. -/
structure URLObj where
  hostname : String
  origin : String
deriving DecidableEq, Repr

/-- The JSON-body fields read by the Vimeo and PeerTube fetchers.  `none`
models an absent (or, for the nullish checks, `null`/`undefined`) field. -/
structure JsonBody where
  thumbnail_url : Option String
  thumbnail_width : Option Int
  thumbnail_height : Option Int
  thumbnailPath : Option String
  previewPath : Option String
deriving DecidableEq, Repr

/-- Outcome of a JSON GET: the fetch promise rejects (`thrown`), the
response is not ok (`notOk`), `res.json()` rejects (`okJsonThrows`), or an
ok response with a parsed body. -/
inductive JsonOutcome where
  | thrown
  | notOk
  | okJsonThrows
  | ok (body : JsonBody)
deriving DecidableEq, Repr

/-- External collaborators: `parseURL` models `new URL` (`none` = throws),
`head` models a HEAD `fetch` (`none` = rejects, `some b` = response with
`ok = b`), `getJson` models a JSON GET. -/
structure Env where
  parseURL : String → Option URLObj
  head : String → Option Bool
  getJson : String → JsonOutcome

/-- Containment of one character list inside another, checked at every
start position. -/
def listContains (needle : List Char) : List Char → Bool
  | [] => needle.isEmpty
  | c :: rest => needle.isPrefixOf (c :: rest) || listContains needle rest

/-- JS `haystack.includes(needle)`: substring containment. -/
def jsIncludes (haystack needle : String) : Bool :=
  listContains needle.toList haystack.toList

/-- JS `s.toLowerCase()`: characterwise lowercasing (ASCII letters on the
hostnames involved). -/
def jsToLowerCase (s : String) : String :=
  String.mk (s.toList.map Char.toLower)

/-- JS nullish coalescing `a ?? b` on possibly-absent string fields:
only `null`/`undefined` (modelled `none`) falls through to `b`; an empty
string is kept. -/
def jsNullish (a b : Option String) : Option String :=
  match a with
  | some s => some s
  | none => b

/-- JS `x || d` where `x` is a possibly-absent number: absent and `0` are
falsy, so they yield the default. -/
def jsOrInt (o : Option Int) (d : Int) : Int :=
  match o with
  | none => d
  | some n => if n == 0 then d else n

/-- Try every alternative literal in order at the current position: the
alternative must be a prefix and at least one capture-class character must
follow; the capture is the maximal run of class characters. -/
def tryAltsAt (alts : List (List Char)) (p : Char → Bool) (cs : List Char) :
    Option (List Char) :=
  alts.findSome? fun alt =>
    if alt.isPrefixOf cs then
      let cap := (cs.drop alt.length).takeWhile p
      if cap.isEmpty then none else some cap
    else none

/-- Leftmost-match scan for a regex of shape `(alt1|alt2|...)(class+)`:
positions are tried left to right, alternatives in order at each position,
and the capture group is greedy. -/
def scanMatch (alts : List (List Char)) (p : Char → Bool) : List Char → Option (List Char)
  | [] => none
  | c :: rest =>
    match tryAltsAt alts p (c :: rest) with
    | some cap => some cap
    | none => scanMatch alts p rest

/-- Character class `[^&?/]` of the YouTube ID capture groups. -/
def ytIdChar (c : Char) : Bool :=
  !(c == '&' || c == '?' || c == '/')

/-- Character class `[a-zA-Z0-9-]` of the PeerTube UUID capture group. -/
def ptIdChar (c : Char) : Bool :=
  c.isAlphanum || c == '-'

/-- Alternatives of the first YouTube pattern
`(?:youtube.com/watch?v=|youtu.be/|youtube.com/embed/)([^&?/]+)`
(dots and the question mark are escaped literals in the source regex). -/
def ytPattern1 : List (List Char) :=
  ["youtube.com/watch?v=".toList, "youtu.be/".toList, "youtube.com/embed/".toList]

/-- Second YouTube pattern `youtube.com/v/([^&?/]+)`. -/
def ytPattern2 : List (List Char) :=
  ["youtube.com/v/".toList]

/-- Third YouTube pattern `youtube.com/shorts/([^&?/]+)`. -/
def ytPattern3 : List (List Char) :=
  ["youtube.com/shorts/".toList]

/-- src/platforms.ts `detectPlatform`: parse the URL (failure gives null),
then hostname checks for YouTube and Vimeo on the lowercased hostname, then
the path-based PeerTube check on the raw input string. -/
def detectPlatform (env : Env) (url : String) : Option Platform :=
  match env.parseURL url with
  | none => none
  | some urlObj =>
    let hostname := jsToLowerCase urlObj.hostname
    if jsIncludes hostname "youtube.com" || jsIncludes hostname "youtu.be" then
      some Platform.youtube
    else if jsIncludes hostname "vimeo.com" then
      some Platform.vimeo
    else if jsIncludes url "/videos/watch/" || jsIncludes url "/w/" then
      some Platform.peertube
    else
      none

/-- src/platforms.ts `extractYouTubeId`: the three patterns are tried in
order against the raw URL and the first captured group wins. -/
def extractYouTubeId (url : String) : Option String :=
  let cs := url.toList
  match scanMatch ytPattern1 ytIdChar cs with
  | some cap => some (String.mk cap)
  | none =>
    match scanMatch ytPattern2 ytIdChar cs with
    | some cap => some (String.mk cap)
    | none =>
      match scanMatch ytPattern3 ytIdChar cs with
      | some cap => some (String.mk cap)
      | none => none

/-- The PeerTube UUID regex `/(?:videos/watch|w)/([a-zA-Z0-9-]+)` applied
to the raw URL (src/fetchers.ts line 46). -/
def ptExtractId (url : String) : Option String :=
  (scanMatch ["/videos/watch/".toList, "/w/".toList] ptIdChar url.toList).map String.mk

/-- The three candidate YouTube thumbnails for a video ID, in descending
quality order (src/fetchers.ts lines 12-16). -/
def ytProbeList (videoId : String) : List (String × Int × Int) :=
  [("https://img.youtube.com/vi/" ++ videoId ++ "/maxresdefault.jpg", 1280, 720),
   ("https://img.youtube.com/vi/" ++ videoId ++ "/hqdefault.jpg", 480, 360),
   ("https://img.youtube.com/vi/" ++ videoId ++ "/mqdefault.jpg", 320, 180)]

/-- The probe loop of `fetchYouTubeThumbnail`: HEAD each candidate in order;
an ok response wins, a non-ok response or a thrown fetch moves on.  Returns
the result and the probe URLs requested. -/
def ytProbeLoop (env : Env) : List (String × Int × Int) → Option ThumbnailResult × List String
  | [] => (none, [])
  | (u, w, h) :: rest =>
    match env.head u with
    | some true => (some ⟨u, w, h, Platform.youtube, false⟩, [u])
    | _ =>
      let out := ytProbeLoop env rest
      (out.1, u :: out.2)

/-- src/fetchers.ts `fetchYouTubeThumbnail`: requires an extracted video ID,
then probes the three candidates. -/
def fetchYouTubeThumbnail (env : Env) (url : String) : Option ThumbnailResult × List String :=
  match extractYouTubeId url with
  | none => (none, [])
  | some videoId => ytProbeLoop env (ytProbeList videoId)

/-- src/fetchers.ts `fetchPeerTubeThumbnail`: needs a parsable URL (for the
instance origin) and a regex-extracted UUID; GETs
`{origin}/api/v1/videos/{uuid}`; prefers `thumbnailPath` over `previewPath`
via nullish coalescing, then rejects a falsy (absent or empty) path. -/
def fetchPeerTubeThumbnail (env : Env) (url : String) : Option ThumbnailResult × List String :=
  match env.parseURL url with
  | none => (none, [])
  | some urlObj =>
    let origin := urlObj.origin
    match ptExtractId url with
    | none => (none, [])
    | some uuid =>
      let apiUrl := origin ++ "/api/v1/videos/" ++ uuid
      match env.getJson apiUrl with
      | JsonOutcome.thrown => (none, [apiUrl])
      | JsonOutcome.notOk => (none, [apiUrl])
      | JsonOutcome.okJsonThrows => (none, [apiUrl])
      | JsonOutcome.ok data =>
        match jsNullish data.thumbnailPath data.previewPath with
        | none => (none, [apiUrl])
        | some thumbnailPath =>
          if thumbnailPath == "" then (none, [apiUrl])
          else
            (some ⟨origin ++ thumbnailPath, 560, 315, Platform.peertube, false⟩, [apiUrl])

/-- True for the characters `encodeURIComponent` leaves unescaped:
ASCII alphanumerics and `- _ . ! ~ * ' ( )`. -/
def isUnreservedURI (c : Char) : Bool :=
  c.isAlphanum || c == '-' || c == '_' || c == '.' || c == '!' || c == '~' ||
    c == '*' || c == Char.ofNat 39 || c == '(' || c == ')'

/-- Uppercase hexadecimal digit for a value below 16. -/
def hexDigitU (n : Nat) : Char :=
  if n < 10 then Char.ofNat (48 + n) else Char.ofNat (55 + n)

/-- Percent-encoding of one byte, `%HH` with uppercase hex. -/
def pctEncodeByte (b : UInt8) : List Char :=
  ['%', hexDigitU (b.toNat / 16), hexDigitU (b.toNat % 16)]

/-- The JS builtin `encodeURIComponent`: unreserved characters kept, every
other character replaced by the percent-encoding of its UTF-8 bytes. -/
def encodeURIComponent (s : String) : String :=
  String.mk (s.toList.flatMap fun c =>
    if isUnreservedURI c then [c]
    else (String.singleton c).toUTF8.toList.flatMap pctEncodeByte)

/-- The Vimeo oEmbed request URL built by `fetchVimeoThumbnail`. -/
def vimeoOembedUrl (url : String) : String :=
  "https://vimeo.com/api/oembed.json?url=" ++ encodeURIComponent url

/-- src/fetchers.ts `fetchVimeoThumbnail`: GET the oEmbed endpoint; a
missing or falsy `thumbnail_url` gives null; `thumbnail_width`/`height`
default to 640x360 through `||` (so 0 and absent both default). -/
def fetchVimeoThumbnail (env : Env) (url : String) : Option ThumbnailResult × List String :=
  let oembedUrl := vimeoOembedUrl url
  match env.getJson oembedUrl with
  | JsonOutcome.thrown => (none, [oembedUrl])
  | JsonOutcome.notOk => (none, [oembedUrl])
  | JsonOutcome.okJsonThrows => (none, [oembedUrl])
  | JsonOutcome.ok data =>
    match data.thumbnail_url with
    | none => (none, [oembedUrl])
    | some tu =>
      if tu == "" then (none, [oembedUrl])
      else
        (some ⟨tu, jsOrInt data.thumbnail_width 640,
               jsOrInt data.thumbnail_height 360, Platform.vimeo, false⟩,
         [oembedUrl])

/-- The module-level `Map<string, CacheEntry>` in insertion order. -/
abbrev Store := List (String × CacheEntry)

/-- src/cache.ts `CACHE_TTL`: 24 hours in milliseconds. -/
def CACHE_TTL : Int := 1000 * 60 * 60 * 24

/-- JS `Map.prototype.get`. -/
def mapGet : Store → String → Option CacheEntry
  | [], _ => none
  | e :: rest, k => if e.1 == k then some e.2 else mapGet rest k

/-- JS `Map.prototype.set`: overwrite in place, or append a new entry. -/
def mapSet : Store → String → CacheEntry → Store
  | [], k, v => [(k, v)]
  | e :: rest, k, v => if e.1 == k then (k, v) :: rest else e :: mapSet rest k v

/-- JS `Map.prototype.delete` (as used here: drop the entries for the key). -/
def mapDelete : Store → String → Store
  | [], _ => []
  | e :: rest, k => if e.1 == k then mapDelete rest k else e :: mapDelete rest k

/-- One call to `getVideoThumbnail`: the returned value, the store it
leaves behind, and the request URLs issued during the call. -/
structure ResolveOut where
  result : Option ThumbnailResult
  store : Store
  requests : List String
deriving DecidableEq, Repr

/-- The `switch (platform)` dispatch of `getVideoThumbnail` (src/cache.ts
lines 38-48). -/
def dispatchFetch (env : Env) (p : Platform) (videoUrl : String) :
    Option ThumbnailResult × List String :=
  match p with
  | Platform.youtube => fetchYouTubeThumbnail env videoUrl
  | Platform.peertube => fetchPeerTubeThumbnail env videoUrl
  | Platform.vimeo => fetchVimeoThumbnail env videoUrl

/-- The detect-and-fetch tail of `getVideoThumbnail` (src/cache.ts lines
33-54): platform detection, dispatch to the matching fetcher, and insertion
of a successful result with the insertion-time `Date.now()`. -/
def resolveFresh (env : Env) (nowIns : Int) (store : Store) (videoUrl : String) : ResolveOut :=
  match detectPlatform env videoUrl with
  | none => ⟨none, store, []⟩
  | some p =>
    let fr := dispatchFetch env p videoUrl
    match fr.1 with
    | some result => ⟨some result, mapSet store videoUrl ⟨result, nowIns⟩, fr.2⟩
    | none => ⟨none, store, fr.2⟩

/-- src/cache.ts `getVideoThumbnail`: serve a fresh cache hit as a copy
with `cached` forced true; delete an expired hit and fall through; then
detect, fetch and cache.  `now` is the `Date.now()` of the freshness check,
`nowIns` the `Date.now()` of the insertion. -/
def getVideoThumbnail (env : Env) (now nowIns : Int) (store : Store) (videoUrl : String) :
    ResolveOut :=
  match mapGet store videoUrl with
  | some entry =>
    let age := now - entry.timestamp
    if age < CACHE_TTL then
      ⟨some { entry.result with cached := true }, store, []⟩
    else
      resolveFresh env nowIns (mapDelete store videoUrl) videoUrl
  | none => resolveFresh env nowIns store videoUrl

/-- src/cache.ts `clearThumbnailCache`. -/
def clearThumbnailCache (_store : Store) : Store := []

/-- Value returned by `getCacheStats`. -/
structure CacheStats where
  size : Nat
  keys : List String
deriving DecidableEq, Repr

/-- src/cache.ts `getCacheStats`: the entry count and a copy of the keys
(`Array.from(map.keys())`, insertion order). -/
def getCacheStats (store : Store) : CacheStats :=
  ⟨store.length, store.map Prod.fst⟩

/-- src/cache.ts `pruneExpiredCache`: delete every entry whose age is at
least `CACHE_TTL`, returning the surviving store and the removal count. -/
def pruneExpiredCache (now : Int) : Store → Store × Nat
  | [] => ([], 0)
  | e :: rest =>
    let out := pruneExpiredCache now rest
    if now - e.2.timestamp >= CACHE_TTL then (out.1, out.2 + 1)
    else (e :: out.1, out.2)

/-
Concrete fixtures used to evaluate the embedding at specific inputs:
environments with constant oracles, URLs from the repository's own tests,
and the values the code produces on them.
-/

/-- A YouTube watch URL from the repository's tests. -/
def ytUrl : String := "https://www.youtube.com/watch?v=abc123"

/-- The maxres probe URL for video ID abc123. -/
def ytMaxUrl : String := "https://img.youtube.com/vi/abc123/maxresdefault.jpg"

/-- The descriptor produced for a successful maxres probe on abc123. -/
def ytRes : ThumbnailResult := ⟨ytMaxUrl, 1280, 720, Platform.youtube, false⟩

/-- Parsed-URL object of a YouTube watch URL. -/
def urlObjYT : URLObj := ⟨"www.youtube.com", "https://www.youtube.com"⟩

/-- Parsed-URL object of a PeerTube instance URL. -/
def urlObjPT : URLObj := ⟨"p.ex", "https://p.ex"⟩

/-- Parsed-URL object of a Vimeo URL. -/
def urlObjVM : URLObj := ⟨"vimeo.com", "https://vimeo.com"⟩

/-- Parsed-URL object of an unrelated site. -/
def urlObjMisc : URLObj := ⟨"example.com", "https://example.com"⟩

/-- A PeerTube API body carrying only a thumbnailPath. -/
def bodyPTthumb : JsonBody := ⟨none, none, none, some "/t.jpg", none⟩

/-- A PeerTube API body with an empty-string thumbnailPath and a non-empty
previewPath. -/
def bodyPTempty : JsonBody := ⟨none, none, none, some "", some "/p.jpg"⟩

/-- A Vimeo oEmbed body with a thumbnail URL and no dimension fields. -/
def bodyVimeoX : JsonBody := ⟨some "X", none, none, none, none⟩

/-- A body with every field absent. -/
def bodyEmpty : JsonBody := ⟨none, none, none, none, none⟩

/-- Environment in which URL parsing fails and all transports fail. -/
def envFail : Env := ⟨fun _ => none, fun _ => none, fun _ => JsonOutcome.thrown⟩

/-- Environment for a YouTube URL whose HEAD probes all succeed. -/
def envYTok : Env := ⟨fun _ => some urlObjYT, fun _ => some true, fun _ => JsonOutcome.thrown⟩

/-- Environment for a YouTube URL whose HEAD probes all reject. -/
def envYTthrow : Env := ⟨fun _ => some urlObjYT, fun _ => none, fun _ => JsonOutcome.thrown⟩

/-- Environment for a YouTube URL whose HEAD probes all return non-ok. -/
def envYTnotOk : Env := ⟨fun _ => some urlObjYT, fun _ => some false, fun _ => JsonOutcome.thrown⟩

/-- Environment for a PeerTube URL whose API GET succeeds with a
thumbnailPath. -/
def envPTok : Env := ⟨fun _ => some urlObjPT, fun _ => none, fun _ => JsonOutcome.ok bodyPTthumb⟩

/-- Environment for a PeerTube URL whose API GET succeeds with an
empty-string thumbnailPath and a non-empty previewPath. -/
def envPTempty : Env := ⟨fun _ => some urlObjPT, fun _ => none, fun _ => JsonOutcome.ok bodyPTempty⟩

/-- Environment for a Vimeo URL whose oEmbed GET succeeds with only a
thumbnail URL. -/
def envVMok : Env := ⟨fun _ => some urlObjVM, fun _ => none, fun _ => JsonOutcome.ok bodyVimeoX⟩

/-- Environment whose JSON GETs reject. -/
def envJsonThrown : Env := ⟨fun _ => some urlObjPT, fun _ => none, fun _ => JsonOutcome.thrown⟩

/-- Environment whose JSON GETs return non-ok responses. -/
def envJsonNotOk : Env := ⟨fun _ => some urlObjPT, fun _ => none, fun _ => JsonOutcome.notOk⟩

/-- Environment whose JSON GETs return ok but with malformed JSON. -/
def envJsonBad : Env := ⟨fun _ => some urlObjPT, fun _ => none, fun _ => JsonOutcome.okJsonThrows⟩

/-- Environment whose JSON GETs return ok with a field-free body. -/
def envOkEmptyBody : Env := ⟨fun _ => some urlObjPT, fun _ => none, fun _ => JsonOutcome.ok bodyEmpty⟩

/-- Environment for an unrecognized site. -/
def envMisc : Env := ⟨fun _ => some urlObjMisc, fun _ => none, fun _ => JsonOutcome.thrown⟩

/-- A 37-character alphanumeric identifier (one more than a UUID's 36). -/
def id37 : String := "aaaaaaaaaaaaaaaaaaaaaaaaaaaaaaaaaaaaa"

/-
Helper lemmas shared by the claim theorems.
-/

/-- Reading back the key just written with JS `Map.set` semantics. -/
theorem mapGet_mapSet_self (store : Store) (k : String) (v : CacheEntry) :
    mapGet (mapSet store k v) k = some v := by
  induction store with
  | nil => simp [mapGet, mapSet]
  | cons e rest ih =>
    by_cases h : e.1 == k
    · simp [mapSet, mapGet, h]
    · simp [mapSet, mapGet, h, ih]

/-- Every result produced by the YouTube probe loop is stamped not cached. -/
theorem ytProbeLoop_cached_false (env : Env) :
    ∀ (l : List (String × Int × Int)) (r : ThumbnailResult),
      (ytProbeLoop env l).1 = some r → r.cached = false := by
  intro l
  induction l with
  | nil =>
    intro r h
    simp [ytProbeLoop] at h
  | cons e rest ih =>
    intro r h
    obtain ⟨u, w, hh⟩ := e
    simp only [ytProbeLoop] at h
    split at h
    · simp only [Option.some.injEq] at h
      rw [← h]
    · exact ih r h

/-- `fetchYouTubeThumbnail` stamps `cached: false`. -/
theorem fetchYouTubeThumbnail_cached_false (env : Env) (url : String) (r : ThumbnailResult)
    (h : (fetchYouTubeThumbnail env url).1 = some r) : r.cached = false := by
  unfold fetchYouTubeThumbnail at h
  split at h
  · simp at h
  · exact ytProbeLoop_cached_false env _ r h

/-- `fetchPeerTubeThumbnail` stamps `cached: false`. -/
theorem fetchPeerTubeThumbnail_cached_false (env : Env) (url : String) (r : ThumbnailResult)
    (h : (fetchPeerTubeThumbnail env url).1 = some r) : r.cached = false := by
  simp only [fetchPeerTubeThumbnail] at h
  repeat' split at h
  all_goals simp_all
  rw [← h]

/-- `fetchVimeoThumbnail` stamps `cached: false`. -/
theorem fetchVimeoThumbnail_cached_false (env : Env) (url : String) (r : ThumbnailResult)
    (h : (fetchVimeoThumbnail env url).1 = some r) : r.cached = false := by
  simp only [fetchVimeoThumbnail] at h
  repeat' split at h
  all_goals simp_all
  rw [← h]

/-- The platform dispatch stamps `cached: false` on success. -/
theorem dispatchFetch_cached_false (env : Env) (p : Platform) (url : String) (r : ThumbnailResult)
    (h : (dispatchFetch env p url).1 = some r) : r.cached = false := by
  cases p <;> simp only [dispatchFetch] at h
  · exact fetchYouTubeThumbnail_cached_false env url r h
  · exact fetchPeerTubeThumbnail_cached_false env url r h
  · exact fetchVimeoThumbnail_cached_false env url r h

/-- A successful fresh resolution stamps `cached: false` and stores the
result under the input URL with the insertion timestamp. -/
theorem resolveFresh_some (env : Env) (nowIns : Int) (store : Store) (url : String)
    (r : ThumbnailResult) (h : (resolveFresh env nowIns store url).result = some r) :
    r.cached = false ∧
      (resolveFresh env nowIns store url).store = mapSet store url ⟨r, nowIns⟩ := by
  rcases hd : detectPlatform env url with _ | p
  · simp [resolveFresh, hd] at h
  · rcases hf : (dispatchFetch env p url).1 with _ | result
    · simp [resolveFresh, hd, hf] at h
    · simp only [resolveFresh, hd, hf, Option.some.injEq] at h ⊢
      rw [← h]
      exact ⟨dispatchFetch_cached_false env p url result hf, rfl⟩

/-- Pruning a store whose every entry is still fresh removes nothing. -/
theorem prune_fresh_noop (now : Int) (s : Store)
    (h : ∀ e ∈ s, now - e.2.timestamp < CACHE_TTL) :
    pruneExpiredCache now s = (s, 0) := by
  induction s with
  | nil => rfl
  | cons e rest ih =>
    have he := h e (by simp)
    have hrest := ih (fun x hx => h x (by simp [hx]))
    simp [pruneExpiredCache, hrest, not_le.mpr he]

/-- A successful alternative probe yields a nonempty capture of class
characters. -/
theorem tryAltsAt_spec (p : Char → Bool) (cs : List Char) (cap : List Char) :
    ∀ alts : List (List Char), tryAltsAt alts p cs = some cap →
      cap ≠ [] ∧ cap.all p = true := by
  intro alts
  induction alts with
  | nil => intro h; simp [tryAltsAt] at h
  | cons alt alts ih =>
    intro h
    simp only [tryAltsAt, List.findSome?_cons] at h
    split at h
    · next heq =>
      split at heq
      · split at heq
        · simp at heq
        · next hcap =>
          simp only [Option.some.injEq] at heq h
          rw [← h, ← heq]
          refine ⟨by simpa using hcap, ?_⟩
          exact List.all_eq_true.mpr fun a ha => List.mem_takeWhile_imp ha
      · simp at heq
    · exact ih h

/-- A successful leftmost-match scan yields a nonempty capture of class
characters. -/
theorem scanMatch_spec (p : Char → Bool) (cap : List Char) :
    ∀ cs : List Char, scanMatch ([ "/videos/watch/".toList, "/w/".toList ]) p cs = some cap →
      cap ≠ [] ∧ cap.all p = true := by
  intro cs
  induction cs with
  | nil => intro h; simp [scanMatch] at h
  | cons c rest ih =>
    intro h
    simp only [scanMatch] at h
    split at h
    · next heq =>
      simp only [Option.some.injEq] at h
      rw [← h]
      exact tryAltsAt_spec p (c :: rest) _ _ heq
    · exact ih h

/-- Unfolding the probe loop over a candidate that is not ok (thrown or
non-ok): the probe is recorded and the loop continues. -/
theorem ytProbeLoop_cons_fail (env : Env) (u : String) (w h : Int)
    (rest : List (String × Int × Int)) (hu : env.head u ≠ some true) :
    ytProbeLoop env ((u, w, h) :: rest) =
      ((ytProbeLoop env rest).1, u :: (ytProbeLoop env rest).2) := by
  rcases hu2 : env.head u with _ | b
  · simp [ytProbeLoop, hu2]
  · cases b
    · simp [ytProbeLoop, hu2]
    · exact absurd hu2 hu

/-- Unfolding the probe loop over an ok candidate: its descriptor is
returned and no further probe is issued. -/
theorem ytProbeLoop_cons_ok (env : Env) (u : String) (w h : Int)
    (rest : List (String × Int × Int)) (hu : env.head u = some true) :
    ytProbeLoop env ((u, w, h) :: rest) =
      (some ⟨u, w, h, Platform.youtube, false⟩, [u]) := by
  simp [ytProbeLoop, hu]

/-- C2: `detectPlatform` applies an ordered first-match-wins algorithm: an
input that does not parse as a URL yields none (never throws); a lowercased
hostname containing youtube.com or youtu.be yields youtube; else a
lowercased hostname containing vimeo.com yields vimeo; else a raw input
string containing the substring /videos/watch/ or /w/ yields peertube;
otherwise none. -/
theorem C2_detectPlatform_first_match (env : Env) (url : String) :
    (env.parseURL url = none → detectPlatform env url = none) ∧
    (∀ u, env.parseURL url = some u →
      ((jsIncludes (jsToLowerCase u.hostname) "youtube.com" = true ∨
        jsIncludes (jsToLowerCase u.hostname) "youtu.be" = true) →
        detectPlatform env url = some Platform.youtube) ∧
      (jsIncludes (jsToLowerCase u.hostname) "youtube.com" = false →
        jsIncludes (jsToLowerCase u.hostname) "youtu.be" = false →
        jsIncludes (jsToLowerCase u.hostname) "vimeo.com" = true →
        detectPlatform env url = some Platform.vimeo) ∧
      (jsIncludes (jsToLowerCase u.hostname) "youtube.com" = false →
        jsIncludes (jsToLowerCase u.hostname) "youtu.be" = false →
        jsIncludes (jsToLowerCase u.hostname) "vimeo.com" = false →
        (jsIncludes url "/videos/watch/" = true ∨ jsIncludes url "/w/" = true) →
        detectPlatform env url = some Platform.peertube) ∧
      (jsIncludes (jsToLowerCase u.hostname) "youtube.com" = false →
        jsIncludes (jsToLowerCase u.hostname) "youtu.be" = false →
        jsIncludes (jsToLowerCase u.hostname) "vimeo.com" = false →
        jsIncludes url "/videos/watch/" = false → jsIncludes url "/w/" = false →
        detectPlatform env url = none)) := by
  refine ⟨fun h => by simp [detectPlatform, h], fun u hu => ⟨?_, ?_, ?_, ?_⟩⟩
  · rintro (h | h) <;> simp [detectPlatform, hu, h]
  · intro h1 h2 h3
    simp [detectPlatform, hu, h1, h2, h3]
  · rintro h1 h2 h3 (h4 | h4) <;> simp [detectPlatform, hu, h1, h2, h3, h4]
  · intro h1 h2 h3 h4 h5
    simp [detectPlatform, hu, h1, h2, h3, h4, h5]

/-- Witness for C2: the parse-failure, YouTube, Vimeo, PeerTube and
unrecognized branches at concrete inputs. -/
theorem C2_witness :
    detectPlatform envFail "not-a-url" = none ∧
    detectPlatform envYTok ytUrl = some Platform.youtube ∧
    detectPlatform envVMok "https://vimeo.com/123456" = some Platform.vimeo ∧
    detectPlatform envPTok "https://p.ex/w/ab-1" = some Platform.peertube ∧
    detectPlatform envMisc "https://example.com/video" = none :=
  ⟨(C2_detectPlatform_first_match envFail "not-a-url").1 rfl,
   ((C2_detectPlatform_first_match envYTok ytUrl).2 urlObjYT rfl).1 (Or.inl (by decide)),
   ((C2_detectPlatform_first_match envVMok "https://vimeo.com/123456").2 urlObjVM rfl).2.1
     (by decide) (by decide) (by decide),
   ((C2_detectPlatform_first_match envPTok "https://p.ex/w/ab-1").2 urlObjPT rfl).2.2.1
     (by decide) (by decide) (by decide) (Or.inr (by decide)),
   ((C2_detectPlatform_first_match envMisc "https://example.com/video").2 urlObjMisc rfl).2.2.2
     (by decide) (by decide) (by decide) (by decide) (by decide)⟩

/-- C3: `fetchYouTubeThumbnail` returns none without probing when no ID is
extracted; otherwise it probes maxresdefault (1280x720), hqdefault
(480x360) and mqdefault (320x180) in order, returns the descriptor of the
first ok probe with cached false and platform youtube, treats thrown and
non-ok probes alike as non-matches, and returns none when all three
fail. -/
theorem C3_fetchYouTubeThumbnail_probe_order (env : Env) (url : String) :
    (extractYouTubeId url = none → fetchYouTubeThumbnail env url = (none, [])) ∧
    (∀ videoId, extractYouTubeId url = some videoId →
      fetchYouTubeThumbnail env url =
        (if env.head ("https://img.youtube.com/vi/" ++ videoId ++ "/maxresdefault.jpg") =
            some true then
           (some ⟨"https://img.youtube.com/vi/" ++ videoId ++ "/maxresdefault.jpg", 1280, 720,
                  Platform.youtube, false⟩,
            ["https://img.youtube.com/vi/" ++ videoId ++ "/maxresdefault.jpg"])
         else if env.head ("https://img.youtube.com/vi/" ++ videoId ++ "/hqdefault.jpg") =
            some true then
           (some ⟨"https://img.youtube.com/vi/" ++ videoId ++ "/hqdefault.jpg", 480, 360,
                  Platform.youtube, false⟩,
            ["https://img.youtube.com/vi/" ++ videoId ++ "/maxresdefault.jpg",
             "https://img.youtube.com/vi/" ++ videoId ++ "/hqdefault.jpg"])
         else if env.head ("https://img.youtube.com/vi/" ++ videoId ++ "/mqdefault.jpg") =
            some true then
           (some ⟨"https://img.youtube.com/vi/" ++ videoId ++ "/mqdefault.jpg", 320, 180,
                  Platform.youtube, false⟩,
            ["https://img.youtube.com/vi/" ++ videoId ++ "/maxresdefault.jpg",
             "https://img.youtube.com/vi/" ++ videoId ++ "/hqdefault.jpg",
             "https://img.youtube.com/vi/" ++ videoId ++ "/mqdefault.jpg"])
         else
           (none,
            ["https://img.youtube.com/vi/" ++ videoId ++ "/maxresdefault.jpg",
             "https://img.youtube.com/vi/" ++ videoId ++ "/hqdefault.jpg",
             "https://img.youtube.com/vi/" ++ videoId ++ "/mqdefault.jpg"]))) := by
  constructor
  · intro h
    simp [fetchYouTubeThumbnail, h]
  · intro videoId h
    simp only [fetchYouTubeThumbnail, h, ytProbeList]
    by_cases h1 : env.head ("https://img.youtube.com/vi/" ++ videoId ++ "/maxresdefault.jpg") =
        some true
    · simp [ytProbeLoop_cons_ok env _ _ _ _ h1, h1]
    · simp only [ytProbeLoop_cons_fail env _ _ _ _ h1, if_neg h1]
      by_cases h2 : env.head ("https://img.youtube.com/vi/" ++ videoId ++ "/hqdefault.jpg") =
          some true
      · simp [ytProbeLoop_cons_ok env _ _ _ _ h2, h2]
      · simp only [ytProbeLoop_cons_fail env _ _ _ _ h2, if_neg h2]
        by_cases h3 : env.head ("https://img.youtube.com/vi/" ++ videoId ++ "/mqdefault.jpg") =
            some true
        · simp [ytProbeLoop_cons_ok env _ _ _ _ h3, h3]
        · simp [ytProbeLoop_cons_fail env _ _ _ _ h3, if_neg h3, ytProbeLoop]

/-- Witness for C3: first probe succeeds on a watch URL; a channel URL
extracts no ID and probes nothing. -/
theorem C3_witness :
    fetchYouTubeThumbnail envYTok ytUrl = (some ytRes, [ytMaxUrl]) ∧
    fetchYouTubeThumbnail envYTok "https://www.youtube.com/channel/c" = (none, []) := by
  constructor
  · have h := (C3_fetchYouTubeThumbnail_probe_order envYTok ytUrl).2 "abc123" (by decide)
    simpa [envYTok, ytRes, ytMaxUrl] using h
  · exact (C3_fetchYouTubeThumbnail_probe_order envYTok "https://www.youtube.com/channel/c").1
      (by decide)

/-- C5: `pruneExpiredCache` keeps exactly the entries younger than the TTL
in order, returns the exact count of removed entries (the boundary is
inclusive: an entry exactly at TTL age is removed), returns 0 on the empty
store, and an immediate second prune removes nothing. -/
theorem C5_pruneExpiredCache_exact (now : Int) (store : Store) :
    (pruneExpiredCache now store).1 =
      store.filter (fun e => decide (now - e.2.timestamp < CACHE_TTL)) ∧
    (pruneExpiredCache now store).2 =
      store.countP (fun e => decide (CACHE_TTL ≤ now - e.2.timestamp)) ∧
    (∀ e ∈ store, now - e.2.timestamp = CACHE_TTL → e ∉ (pruneExpiredCache now store).1) ∧
    pruneExpiredCache now ([] : Store) = ([], 0) ∧
    pruneExpiredCache now (pruneExpiredCache now store).1 =
      ((pruneExpiredCache now store).1, 0) := by
  have hmain : (pruneExpiredCache now store).1 =
        store.filter (fun e => decide (now - e.2.timestamp < CACHE_TTL)) ∧
      (pruneExpiredCache now store).2 =
        store.countP (fun e => decide (CACHE_TTL ≤ now - e.2.timestamp)) := by
    induction store with
    | nil => simp [pruneExpiredCache]
    | cons e rest ih =>
      by_cases h : CACHE_TTL ≤ now - e.2.timestamp
      · simp [pruneExpiredCache, ih.1, ih.2, h, List.filter_cons, List.countP_cons,
          not_lt.mpr h]
      · simp [pruneExpiredCache, ih.1, ih.2, h, List.filter_cons, List.countP_cons,
          not_le.mp h]
  refine ⟨hmain.1, hmain.2, ?_, rfl, ?_⟩
  · intro e _ heq hmem
    rw [hmain.1] at hmem
    have hp := List.of_mem_filter hmem
    rw [heq] at hp
    simp at hp
  · apply prune_fresh_noop
    intro e he
    rw [hmain.1] at he
    have hp := List.of_mem_filter he
    simpa using hp

/-- Witness for C5: an entry exactly at TTL age is removed and counted. -/
theorem C5_witness :
    ("k", (⟨ytRes, 0⟩ : CacheEntry)) ∉
      (pruneExpiredCache CACHE_TTL [("k", ⟨ytRes, 0⟩)]).1 ∧
    (pruneExpiredCache CACHE_TTL [("k", ⟨ytRes, 0⟩)]).2 = 1 :=
  ⟨(C5_pruneExpiredCache_exact CACHE_TTL [("k", ⟨ytRes, 0⟩)]).2.2.1
      ("k", ⟨ytRes, 0⟩) (by simp) (by decide),
   by decide⟩

/-- C6: on a cache miss, a URL whose platform detection yields none makes
`getVideoThumbnail` return none, issue no request and leave the store
unchanged. -/
theorem C6_unrecognized_no_fetch_no_insert (env : Env) (now nowIns : Int) (store : Store)
    (url : String) (hmiss : mapGet store url = none)
    (hdet : detectPlatform env url = none) :
    getVideoThumbnail env now nowIns store url = ⟨none, store, []⟩ := by
  simp [getVideoThumbnail, hmiss, resolveFresh, hdet]

/-- Witness for C6 at a malformed URL on the empty store. -/
theorem C6_witness : getVideoThumbnail envFail 0 0 [] "not-a-url" = ⟨none, [], []⟩ :=
  C6_unrecognized_no_fetch_no_insert envFail 0 0 [] "not-a-url" rfl rfl

/-- C1: a cache hit younger than the TTL is returned as a copy of the
stored result with cached forced true, with no request and no store
change; a hit at least TTL old is deleted and resolution falls through to
the fresh detect-and-fetch path; and after a successful resolution on a
miss, an immediate second call for the same URL returns the same
url/width/height/platform with cached false then true, issuing no further
request, so the two calls together issue exactly the first call's
requests. -/
theorem C1_cache_hit_expiry_idempotence (env : Env) (now nowIns now2 nowIns2 : Int)
    (store : Store) (url : String) :
    (∀ entry, mapGet store url = some entry →
      (now - entry.timestamp < CACHE_TTL →
        getVideoThumbnail env now nowIns store url =
          ⟨some { entry.result with cached := true }, store, []⟩) ∧
      (CACHE_TTL ≤ now - entry.timestamp →
        getVideoThumbnail env now nowIns store url =
          resolveFresh env nowIns (mapDelete store url) url)) ∧
    (mapGet store url = none →
      ∀ r, (getVideoThumbnail env now nowIns store url).result = some r →
        r.cached = false ∧
        (now2 - nowIns < CACHE_TTL →
          getVideoThumbnail env now2 nowIns2
              (getVideoThumbnail env now nowIns store url).store url =
            ⟨some { r with cached := true },
             (getVideoThumbnail env now nowIns store url).store, []⟩)) := by
  constructor
  · intro entry hget
    constructor
    · intro hlt
      simp [getVideoThumbnail, hget, hlt]
    · intro hge
      simp [getVideoThumbnail, hget, not_lt.mpr hge]
  · intro hnone r hres
    have hcall : getVideoThumbnail env now nowIns store url =
        resolveFresh env nowIns store url := by
      simp [getVideoThumbnail, hnone]
    rw [hcall] at hres
    obtain ⟨hcf, hstore⟩ := resolveFresh_some env nowIns store url r hres
    refine ⟨hcf, fun hlt2 => ?_⟩
    rw [hcall, hstore]
    have hget2 : mapGet (mapSet store url ⟨r, nowIns⟩) url = some ⟨r, nowIns⟩ :=
      mapGet_mapSet_self store url ⟨r, nowIns⟩
    simp [getVideoThumbnail, hget2, hlt2]

/-- Witness for C1: a YouTube URL on the empty store resolves with cached
false and one request; the immediate second call returns the copy with
cached true, the same store, and no request. -/
theorem C1_witness :
    (getVideoThumbnail envYTok 0 0 [] ytUrl).result = some ytRes ∧
    ytRes.cached = false ∧
    getVideoThumbnail envYTok 1000 1000 (getVideoThumbnail envYTok 0 0 [] ytUrl).store ytUrl =
      ⟨some { ytRes with cached := true },
       (getVideoThumbnail envYTok 0 0 [] ytUrl).store, []⟩ ∧
    (getVideoThumbnail envYTok 0 0 [] ytUrl).requests = [ytMaxUrl] := by
  have hres : (getVideoThumbnail envYTok 0 0 [] ytUrl).result = some ytRes := by decide
  have h := (C1_cache_hit_expiry_idempotence envYTok 0 0 1000 1000 [] ytUrl).2 rfl ytRes hres
  exact ⟨hres, h.1, h.2 (by decide), by decide⟩

/-- C7: when the oEmbed GET returns ok with a truthy thumbnail URL,
`fetchVimeoThumbnail` returns that URL with cached false and platform
vimeo, and the width/height fields default to 640x360 whenever they are
absent or zero, a present nonzero value being kept. -/
theorem C7_vimeo_dimension_defaults (env : Env) (url : String) (data : JsonBody) (tu : String)
    (hjson : env.getJson (vimeoOembedUrl url) = JsonOutcome.ok data)
    (hturl : data.thumbnail_url = some tu) (hne : tu ≠ "") :
    fetchVimeoThumbnail env url =
      (some ⟨tu, jsOrInt data.thumbnail_width 640, jsOrInt data.thumbnail_height 360,
             Platform.vimeo, false⟩,
       [vimeoOembedUrl url]) ∧
    ((data.thumbnail_width = none ∨ data.thumbnail_width = some 0) →
      jsOrInt data.thumbnail_width 640 = 640) ∧
    ((data.thumbnail_height = none ∨ data.thumbnail_height = some 0) →
      jsOrInt data.thumbnail_height 360 = 360) ∧
    (∀ w, data.thumbnail_width = some w → w ≠ 0 → jsOrInt data.thumbnail_width 640 = w) ∧
    (∀ h, data.thumbnail_height = some h → h ≠ 0 → jsOrInt data.thumbnail_height 360 = h) := by
  refine ⟨?_, ?_, ?_, ?_, ?_⟩
  · simp [fetchVimeoThumbnail, hjson, hturl, hne]
  · rintro (h | h) <;> simp [jsOrInt, h]
  · rintro (h | h) <;> simp [jsOrInt, h]
  · intro w hw hne2
    simp [jsOrInt, hw, hne2]
  · intro h hh hne2
    simp [jsOrInt, hh, hne2]

/-- Witness for C7: the spec's Example 3, an oEmbed body with only a
thumbnail URL yields 640x360 defaults. -/
theorem C7_witness :
    fetchVimeoThumbnail envVMok "https://vimeo.com/123456" =
      (some ⟨"X", 640, 360, Platform.vimeo, false⟩,
       [vimeoOembedUrl "https://vimeo.com/123456"]) :=
  (C7_vimeo_dimension_defaults envVMok "https://vimeo.com/123456" bodyVimeoX "X"
    rfl rfl (by decide)).1

/-- C10: an ok PeerTube API body whose thumbnailPath is the empty string
defeats the previewPath fallback: the nullish selection keeps the empty
string and the falsiness check rejects it, so the fetcher returns none even
though a non-empty previewPath is present. -/
theorem C10_empty_thumbnailPath_blocks_fallback (env : Env) (url : String)
    (urlObj : URLObj) (uuid : String) (data : JsonBody) (p : String)
    (hparse : env.parseURL url = some urlObj)
    (hid : ptExtractId url = some uuid)
    (hjson : env.getJson (urlObj.origin ++ "/api/v1/videos/" ++ uuid) = JsonOutcome.ok data)
    (hthumb : data.thumbnailPath = some "")
    (hprev : data.previewPath = some p) (hpne : p ≠ "") :
    fetchPeerTubeThumbnail env url =
      (none, [urlObj.origin ++ "/api/v1/videos/" ++ uuid]) := by
  simp [fetchPeerTubeThumbnail, hparse, hid, hjson, hthumb, jsNullish]

/-- Witness for C10 at a concrete PeerTube URL and body. -/
theorem C10_witness :
    fetchPeerTubeThumbnail envPTempty "https://p.ex/w/ab-1" =
      (none, [urlObjPT.origin ++ "/api/v1/videos/" ++ "ab-1"]) :=
  C10_empty_thumbnailPath_blocks_fallback envPTempty "https://p.ex/w/ab-1" urlObjPT "ab-1"
    bodyPTempty "/p.jpg" rfl (by decide) rfl rfl rfl (by decide)

/-- The probe loop yields none when no candidate gets an ok response. -/
theorem ytProbeLoop_all_fail (env : Env) (hno : ∀ u, env.head u ≠ some true) :
    ∀ l, (ytProbeLoop env l).1 = none := by
  intro l
  induction l with
  | nil => rfl
  | cons e rest ih =>
    obtain ⟨u, w, hh⟩ := e
    rw [ytProbeLoop_cons_fail env u w hh rest (hno u)]
    exact ih

/-- Counterexample to C4: the UUID regex `[a-zA-Z0-9-]+` has no length
cap, so a 37-character identifier is extracted, the API request is issued,
and a result is returned — the claim's "returns none without issuing a
request" fails. -/
theorem C4_counterexample :
    id37.length = 37 ∧
    id37.toList.all ptIdChar = true ∧
    fetchPeerTubeThumbnail envPTok ("https://p.ex/w/" ++ id37) =
      (some ⟨"https://p.ex/t.jpg", 560, 315, Platform.peertube, false⟩,
       ["https://p.ex/api/v1/videos/" ++ id37]) := by
  refine ⟨by decide, by decide, by decide⟩

/-- C4 as amended: `fetchPeerTubeThumbnail` proceeds exactly when the URL
parses and a nonempty alphanumeric/hyphen identifier of any length is
extracted from a /videos/watch/ID or /w/ID path segment; if either
condition fails it returns none without issuing a request, and when both
hold it issues exactly the one instance API request. -/
theorem C4_amended_peertube_guard (env : Env) (url : String) :
    (env.parseURL url = none → fetchPeerTubeThumbnail env url = (none, [])) ∧
    (ptExtractId url = none → fetchPeerTubeThumbnail env url = (none, [])) ∧
    (∀ uuid, ptExtractId url = some uuid →
      uuid ≠ "" ∧ uuid.toList.all ptIdChar = true) ∧
    (∀ urlObj uuid, env.parseURL url = some urlObj → ptExtractId url = some uuid →
      (fetchPeerTubeThumbnail env url).2 =
        [urlObj.origin ++ "/api/v1/videos/" ++ uuid]) := by
  refine ⟨?_, ?_, ?_, ?_⟩
  · intro h
    simp [fetchPeerTubeThumbnail, h]
  · intro h
    rcases hp : env.parseURL url with _ | urlObj
    · simp [fetchPeerTubeThumbnail, hp]
    · simp [fetchPeerTubeThumbnail, hp, h]
  · intro uuid h
    unfold ptExtractId at h
    rcases hs : scanMatch ["/videos/watch/".toList, "/w/".toList] ptIdChar url.toList with
      _ | cap
    · rw [hs] at h
      simp at h
    · rw [hs] at h
      injection h with h3
      obtain ⟨hcap, hall⟩ := scanMatch_spec ptIdChar cap url.toList hs
      constructor
      · intro he
        have h4 : cap = ([] : List Char) := congrArg String.data (h3.trans he)
        exact hcap h4
      · rw [← h3]
        exact hall
  · intro urlObj uuid hp hid
    rcases hj : env.getJson (urlObj.origin ++ "/api/v1/videos/" ++ uuid) with _ | _ | _ | data <;>
      simp only [fetchPeerTubeThumbnail, hp, hid, hj] <;> try rfl
    rcases hn : jsNullish data.thumbnailPath data.previewPath with _ | p2
    · simp [hn]
    · by_cases hp2 : p2 = ""
      · simp [hn, hp2]
      · simp [hn, hp2]

/-- Witness for the amended C4 at concrete inputs covering each branch. -/
theorem C4_witness :
    fetchPeerTubeThumbnail envFail "https://p.ex/w/ab-1" = (none, []) ∧
    fetchPeerTubeThumbnail envPTok "https://p.ex/about" = (none, []) ∧
    ("ab-1" ≠ "" ∧ "ab-1".toList.all ptIdChar = true) ∧
    (fetchPeerTubeThumbnail envPTok "https://p.ex/w/ab-1").2 =
      [urlObjPT.origin ++ "/api/v1/videos/" ++ "ab-1"] :=
  ⟨(C4_amended_peertube_guard envFail "https://p.ex/w/ab-1").1 rfl,
   (C4_amended_peertube_guard envPTok "https://p.ex/about").2.1 (by decide),
   (C4_amended_peertube_guard envPTok "https://p.ex/w/ab-1").2.2.1 "ab-1" (by decide),
   (C4_amended_peertube_guard envPTok "https://p.ex/w/ab-1").2.2.2 urlObjPT "ab-1" rfl
     (by decide)⟩

/-- C8: each fetcher absorbs transport failure into a none result: HEAD
probes that all throw or all return non-ok leave the YouTube fetcher at
none; a thrown JSON GET, a non-ok response, a body whose JSON parse
throws, and a body missing the expected fields each leave the Vimeo and
PeerTube fetchers at none — no failure escapes a fetcher. -/
theorem C8_fetcher_error_totality (url : String) :
    (∀ env : Env, (∀ u, env.head u = none) → (fetchYouTubeThumbnail env url).1 = none) ∧
    (∀ env : Env, (∀ u, env.head u = some false) → (fetchYouTubeThumbnail env url).1 = none) ∧
    (∀ env : Env, (∀ u, env.getJson u = JsonOutcome.thrown) →
      (fetchVimeoThumbnail env url).1 = none ∧ (fetchPeerTubeThumbnail env url).1 = none) ∧
    (∀ env : Env, (∀ u, env.getJson u = JsonOutcome.notOk) →
      (fetchVimeoThumbnail env url).1 = none ∧ (fetchPeerTubeThumbnail env url).1 = none) ∧
    (∀ env : Env, (∀ u, env.getJson u = JsonOutcome.okJsonThrows) →
      (fetchVimeoThumbnail env url).1 = none ∧ (fetchPeerTubeThumbnail env url).1 = none) ∧
    (∀ env : Env, ∀ body, (∀ u, env.getJson u = JsonOutcome.ok body) →
      body.thumbnail_url = none → (fetchVimeoThumbnail env url).1 = none) ∧
    (∀ env : Env, ∀ body, (∀ u, env.getJson u = JsonOutcome.ok body) →
      body.thumbnailPath = none → body.previewPath = none →
      (fetchPeerTubeThumbnail env url).1 = none) := by
  have hpt : ∀ env : Env,
      (∀ urlObj uuid, env.parseURL url = some urlObj → ptExtractId url = some uuid →
        (match env.getJson (urlObj.origin ++ "/api/v1/videos/" ++ uuid) with
          | JsonOutcome.ok data => jsNullish data.thumbnailPath data.previewPath = none
          | _ => True)) →
      (fetchPeerTubeThumbnail env url).1 = none := by
    intro env h
    rcases hp : env.parseURL url with _ | urlObj
    · simp [fetchPeerTubeThumbnail, hp]
    · rcases hid : ptExtractId url with _ | uuid
      · simp [fetchPeerTubeThumbnail, hp, hid]
      · have h2 := h urlObj uuid hp hid
        rcases hj : env.getJson (urlObj.origin ++ "/api/v1/videos/" ++ uuid) with
          _ | _ | _ | data <;> simp only [fetchPeerTubeThumbnail, hp, hid, hj] <;> try rfl
        rw [hj] at h2
        simp only at h2
        simp [h2]
  refine ⟨?_, ?_, ?_, ?_, ?_, ?_, ?_⟩
  · intro env h
    unfold fetchYouTubeThumbnail
    split
    · rfl
    · exact ytProbeLoop_all_fail env (fun u => by simp [h u]) _
  · intro env h
    unfold fetchYouTubeThumbnail
    split
    · rfl
    · exact ytProbeLoop_all_fail env (fun u => by simp [h u]) _
  · intro env h
    exact ⟨by simp [fetchVimeoThumbnail, h (vimeoOembedUrl url)],
           hpt env (by intro urlObj uuid _ _; rw [h _]; trivial)⟩
  · intro env h
    exact ⟨by simp [fetchVimeoThumbnail, h (vimeoOembedUrl url)],
           hpt env (by intro urlObj uuid _ _; rw [h _]; trivial)⟩
  · intro env h
    exact ⟨by simp [fetchVimeoThumbnail, h (vimeoOembedUrl url)],
           hpt env (by intro urlObj uuid _ _; rw [h _]; trivial)⟩
  · intro env body h hb
    simp [fetchVimeoThumbnail, h (vimeoOembedUrl url), hb]
  · intro env body h ht hp
    exact hpt env (by intro urlObj uuid _ _; rw [h _]; simp [jsNullish, ht, hp])

/-- Witness for C8: every failure mode at concrete environments. -/
theorem C8_witness :
    (fetchYouTubeThumbnail envYTthrow ytUrl).1 = none ∧
    (fetchYouTubeThumbnail envYTnotOk ytUrl).1 = none ∧
    (fetchVimeoThumbnail envJsonThrown "https://p.ex/w/ab-1").1 = none ∧
    (fetchPeerTubeThumbnail envJsonThrown "https://p.ex/w/ab-1").1 = none ∧
    (fetchVimeoThumbnail envJsonNotOk "https://p.ex/w/ab-1").1 = none ∧
    (fetchPeerTubeThumbnail envJsonNotOk "https://p.ex/w/ab-1").1 = none ∧
    (fetchVimeoThumbnail envJsonBad "https://p.ex/w/ab-1").1 = none ∧
    (fetchPeerTubeThumbnail envJsonBad "https://p.ex/w/ab-1").1 = none ∧
    (fetchVimeoThumbnail envOkEmptyBody "https://p.ex/w/ab-1").1 = none ∧
    (fetchPeerTubeThumbnail envOkEmptyBody "https://p.ex/w/ab-1").1 = none :=
  ⟨(C8_fetcher_error_totality ytUrl).1 envYTthrow (fun _ => rfl),
   (C8_fetcher_error_totality ytUrl).2.1 envYTnotOk (fun _ => rfl),
   ((C8_fetcher_error_totality "https://p.ex/w/ab-1").2.2.1 envJsonThrown (fun _ => rfl)).1,
   ((C8_fetcher_error_totality "https://p.ex/w/ab-1").2.2.1 envJsonThrown (fun _ => rfl)).2,
   ((C8_fetcher_error_totality "https://p.ex/w/ab-1").2.2.2.1 envJsonNotOk (fun _ => rfl)).1,
   ((C8_fetcher_error_totality "https://p.ex/w/ab-1").2.2.2.1 envJsonNotOk (fun _ => rfl)).2,
   ((C8_fetcher_error_totality "https://p.ex/w/ab-1").2.2.2.2.1 envJsonBad (fun _ => rfl)).1,
   ((C8_fetcher_error_totality "https://p.ex/w/ab-1").2.2.2.2.1 envJsonBad (fun _ => rfl)).2,
   (C8_fetcher_error_totality "https://p.ex/w/ab-1").2.2.2.2.2.1 envOkEmptyBody bodyEmpty
     (fun _ => rfl) rfl,
   (C8_fetcher_error_totality "https://p.ex/w/ab-1").2.2.2.2.2.2 envOkEmptyBody bodyEmpty
     (fun _ => rfl) rfl rfl⟩

/-- C9: `getCacheStats` reports the current entry count and a copy of the
key list.  In this embedding the snapshot is a value fully determined by
the store at call time (`Array.from(map.keys())` copies), so a mutation —
clear, a resolving call, or a prune — yields a new store whose stats are
those of the new value, while the equalities for the snapshot of the old
store continue to hold unchanged. -/
theorem C9_getCacheStats_snapshot (env : Env) (now nowIns pNow : Int) (store : Store)
    (url : String) :
    (getCacheStats store).size = store.length ∧
    (getCacheStats store).keys = store.map Prod.fst ∧
    getCacheStats (clearThumbnailCache store) = ⟨0, []⟩ ∧
    getCacheStats (getVideoThumbnail env now nowIns store url).store =
      ⟨(getVideoThumbnail env now nowIns store url).store.length,
       (getVideoThumbnail env now nowIns store url).store.map Prod.fst⟩ ∧
    getCacheStats (pruneExpiredCache pNow store).1 =
      ⟨(pruneExpiredCache pNow store).1.length,
       (pruneExpiredCache pNow store).1.map Prod.fst⟩ ∧
    getCacheStats store = ⟨store.length, store.map Prod.fst⟩ :=
  ⟨rfl, rfl, rfl, rfl, rfl, rfl⟩

end TinyThumbs
